import Mathlib

/-!
Verification development for the Re-ML signature-aggregation core:
the ML-DSA (Dilithium2) guest verifier (src/reml/guest/src/main.rs),
the shared library (src/reml/lib/src/lib.rs) and the on-chain
reml-verifier pallet (src/pallets/reml-verifier/src/lib.rs).

Bytes are modelled as `Nat` values below 256 in `List Nat`; machine
integers are modelled as `Nat`/`Int` with explicit reduction modulo
the word size wherever the Rust code can wrap (release-mode wrapping
semantics, which is what the zkVM guest and runtime builds use).
Rust panics are modelled as `Option.none`.
-/

set_option maxRecDepth 100000

/-! Shared byte and 64-bit word helpers. -/

def mask64 : Nat := 2 ^ 64 - 1

def rotl64 (x n : Nat) : Nat := ((x <<< n) ||| (x >>> (64 - n))) &&& mask64

def rotr64 (x n : Nat) : Nat := ((x >>> n) ||| (x <<< (64 - n))) &&& mask64

def add64 (a b : Nat) : Nat := (a + b) &&& mask64

/-- Little-endian bytes of a u64 value. -/
def u64le (n : Nat) : List Nat := (List.range 8).map (fun i => (n >>> (8 * i)) &&& 0xFF)

/-- Little-endian bytes of a u32 value. -/
def u32le (n : Nat) : List Nat := (List.range 4).map (fun i => (n >>> (8 * i)) &&& 0xFF)

/-- Read a 64-bit little-endian word from a byte list. -/
def word64le (bs : List Nat) : Nat :=
  (List.range 8).foldl (fun acc i => acc ||| ((bs.getD i 0) <<< (8 * i))) 0

/-! Keccak-f[1600] permutation, 24 rounds, transcribed from `keccak_f1600`
in src/reml/guest/src/main.rs (which is the standard permutation). -/

def keccakRC : List Nat :=
  [0x0000000000000001, 0x0000000000008082, 0x800000000000808a, 0x8000000080008000,
   0x000000000000808b, 0x0000000080000001, 0x8000000080008081, 0x8000000000008009,
   0x000000000000008a, 0x0000000000000088, 0x0000000080008009, 0x000000008000000a,
   0x000000008000808b, 0x800000000000008b, 0x8000000000008089, 0x8000000000008003,
   0x8000000000008002, 0x8000000000000080, 0x000000000000800a, 0x800000008000000a,
   0x8000000080008081, 0x8000000000008080, 0x0000000080000001, 0x8000000080008008]

def keccakRotOff : List (List Nat) :=
  [[0, 36, 3, 41, 18],
   [1, 44, 10, 45, 2],
   [62, 6, 43, 15, 61],
   [28, 55, 25, 21, 56],
   [27, 20, 39, 8, 14]]

/-- One Keccak round: theta, rho+pi, chi, iota.  State is 25 lanes,
index x + 5*y as in the source; the rho+pi temporary is a 5x5 matrix
flattened as x*5 + y. -/
def keccakRound (st : List Nat) (rc : Nat) : List Nat :=
  let c := (List.range 5).map (fun x =>
    (st.getD x 0) ^^^ (st.getD (x + 5) 0) ^^^ (st.getD (x + 10) 0) ^^^
    (st.getD (x + 15) 0) ^^^ (st.getD (x + 20) 0))
  let d := (List.range 5).map (fun x =>
    (c.getD ((x + 4) % 5) 0) ^^^ rotl64 (c.getD ((x + 1) % 5) 0) 1)
  let stTheta := (List.range 25).map (fun i => (st.getD i 0) ^^^ (d.getD (i % 5) 0))
  let temp := (List.range 25).foldl
    (fun (t : List Nat) i =>
      let x := i % 5
      let y := i / 5
      t.set (y * 5 + (2 * x + 3 * y) % 5)
        (rotl64 (stTheta.getD (x + 5 * y) 0) ((keccakRotOff.getD x []).getD y 0)))
    (List.replicate 25 0)
  let stChi := (List.range 25).map (fun i =>
    let x := i % 5
    let y := i / 5
    (temp.getD (x * 5 + y) 0) ^^^
      ((mask64 ^^^ (temp.getD (((x + 1) % 5) * 5 + y) 0)) &&&
        (temp.getD (((x + 2) % 5) * 5 + y) 0)))
  stChi.set 0 ((stChi.getD 0 0) ^^^ rc)

def keccakF1600 (st : List Nat) : List Nat := keccakRC.foldl keccakRound st

/-- XOR a block of bytes into the low lanes of the state,
as in the absorb loop of the guest `keccak256`. -/
def xorBlock (st : List Nat) (block : List Nat) : List Nat :=
  (List.range block.length).foldl
    (fun st i =>
      st.set (i / 8) ((st.getD (i / 8) 0) ^^^ ((block.getD i 0) <<< ((i % 8) * 8))))
    st

/-- Squeeze 32 output bytes from the first four lanes, little-endian. -/
def squeeze32 (st : List Nat) : List Nat :=
  ((List.range 4).map (fun i =>
    (List.range 8).map (fun j => ((st.getD i 0) >>> (8 * j)) &&& 0xFF))).flatten

namespace Guest

/-- Absorb phase of the guest `keccak256` (src/reml/guest/src/main.rs).
The source permutes after every block, since `block_size == rate` or the
block is the final one; the condition is transcribed as written.  The
fuel argument is initialised to the input length; every iteration
consumes at least one byte, so the fuel never runs out before the input
does and the zero-fuel case is only reached with an empty input. -/
def absorbAux : Nat → List Nat → List Nat → List Nat
  | 0, st, _ => st
  | fuel + 1, st, input =>
    if input = [] then st
    else
      let block := input.take 136
      let st1 := xorBlock st block
      let st2 := if block.length = 136 ∨ input.drop 136 = [] then keccakF1600 st1 else st1
      absorbAux fuel st2 (input.drop 136)

def absorb (st : List Nat) (input : List Nat) : List Nat :=
  absorbAux input.length st input

/-- The guest program function `keccak256`: a nonstandard sponge whose
padding is applied after the absorb loop has already permuted the final
block (so short inputs go through two permutations, unlike standard
Keccak-256). -/
def keccak256 (input : List Nat) : List Nat :=
  let st0 := absorb (List.replicate 25 0) input
  let i1 := (input.length % 136) / 8
  let st1 := st0.set i1 ((st0.getD i1 0) ^^^ (0x01 <<< ((input.length % 8) * 8)))
  let st2 := st1.set 16 ((st1.getD 16 0) ^^^ (0x80 <<< 56))
  squeeze32 (keccakF1600 st2)

/-- Guest `shake256_32`: just `keccak256`. -/
def shake256_32 (input : List Nat) : List Nat := keccak256 input

/-- Guest `shake256_64`: `keccak256(input) || keccak256(keccak256(input))`. -/
def shake256_64 (input : List Nat) : List Nat :=
  let h1 := keccak256 input
  h1 ++ keccak256 h1

/-- Guest `expand_shake128`: concatenate `keccak256(seed || ctr_le)` for
counter 0,1,... until `outLen` bytes are available, then truncate.  Each
iteration appends exactly 32 bytes, so the loop runs ceil(outLen/32) times. -/
def expandShake128 (seed : List Nat) (outLen : Nat) : List Nat :=
  (((List.range ((outLen + 31) / 32)).map
      (fun ctr => keccak256 (seed ++ u32le ctr))).flatten).take outLen

end Guest

/-! Standard Keccak-256 (pre-SHA3 0x01 domain padding), modelling the
external `sha3::Keccak256` used by `reml_lib::compute_requests_root`
in src/reml/lib/src/lib.rs. -/

def keccakPadding (len : Nat) : List Nat :=
  let rem := 136 - len % 136
  if rem = 1 then [0x81] else 0x01 :: (List.replicate (rem - 2) 0 ++ [0x80])

def absorbPaddedAux : Nat → List Nat → List Nat → List Nat
  | 0, st, _ => st
  | fuel + 1, st, input =>
    if input = [] then st
    else absorbPaddedAux fuel (keccakF1600 (xorBlock st (input.take 136))) (input.drop 136)

def keccak256std (input : List Nat) : List Nat :=
  let padded := input ++ keccakPadding input.length
  squeeze32 (absorbPaddedAux padded.length (List.replicate 25 0) padded)

/-! Blake2b-256, modelling `sp_core::blake2_256` (BLAKE2b, 32-byte digest,
no key) used by the reml-verifier pallet. -/

def blake2bIV : List Nat :=
  [0x6a09e667f3bcc908, 0xbb67ae8584caa73b, 0x3c6ef372fe94f82b, 0xa54ff53a5f1d36f1,
   0x510e527fade682d1, 0x9b05688c2b3e6c1f, 0x1f83d9abfb41bd6b, 0x5be0cd19137e2179]

def blake2bSigma : List (List Nat) :=
  [[0, 1, 2, 3, 4, 5, 6, 7, 8, 9, 10, 11, 12, 13, 14, 15],
   [14, 10, 4, 8, 9, 15, 13, 6, 1, 12, 0, 2, 11, 7, 5, 3],
   [11, 8, 12, 0, 5, 2, 15, 13, 10, 14, 3, 6, 7, 1, 9, 4],
   [7, 9, 3, 1, 13, 12, 11, 14, 2, 6, 5, 10, 4, 0, 15, 8],
   [9, 0, 5, 7, 2, 4, 10, 15, 14, 1, 11, 12, 6, 8, 3, 13],
   [2, 12, 6, 10, 0, 11, 8, 3, 4, 13, 7, 5, 15, 14, 1, 9],
   [12, 5, 1, 15, 14, 13, 4, 10, 0, 7, 6, 3, 9, 2, 8, 11],
   [13, 11, 7, 14, 12, 1, 3, 9, 5, 0, 15, 4, 8, 6, 2, 10],
   [6, 15, 14, 9, 11, 3, 0, 8, 12, 2, 13, 7, 1, 4, 10, 5],
   [10, 2, 8, 4, 7, 6, 1, 5, 15, 11, 9, 14, 3, 12, 13, 0]]

def blakeG (v : List Nat) (a b c d : Nat) (x y : Nat) : List Nat :=
  let va := add64 (add64 (v.getD a 0) (v.getD b 0)) x
  let vd := rotr64 ((v.getD d 0) ^^^ va) 32
  let vc := add64 (v.getD c 0) vd
  let vb := rotr64 ((v.getD b 0) ^^^ vc) 24
  let va2 := add64 (add64 va vb) y
  let vd2 := rotr64 (vd ^^^ va2) 16
  let vc2 := add64 vc vd2
  let vb2 := rotr64 (vb ^^^ vc2) 63
  (((v.set a va2).set b vb2).set c vc2).set d vd2

def blake2bRound (m : List Nat) (v : List Nat) (r : Nat) : List Nat :=
  let s := blake2bSigma.getD (r % 10) []
  let mi := fun i => m.getD (s.getD i 0) 0
  let v1 := blakeG v 0 4 8 12 (mi 0) (mi 1)
  let v2 := blakeG v1 1 5 9 13 (mi 2) (mi 3)
  let v3 := blakeG v2 2 6 10 14 (mi 4) (mi 5)
  let v4 := blakeG v3 3 7 11 15 (mi 6) (mi 7)
  let v5 := blakeG v4 0 5 10 15 (mi 8) (mi 9)
  let v6 := blakeG v5 1 6 11 12 (mi 10) (mi 11)
  let v7 := blakeG v6 2 7 8 13 (mi 12) (mi 13)
  blakeG v7 3 4 9 14 (mi 14) (mi 15)

def blake2bCompress (h : List Nat) (block : List Nat) (t : Nat) (last : Bool) : List Nat :=
  let m := (List.range 16).map (fun i => word64le ((block.drop (8 * i)).take 8))
  let v0 := h ++ blake2bIV
  let v1 := v0.set 12 ((v0.getD 12 0) ^^^ (t &&& mask64))
  let v2 := v1.set 13 ((v1.getD 13 0) ^^^ ((t >>> 64) &&& mask64))
  let v3 := if last then v2.set 14 ((v2.getD 14 0) ^^^ mask64) else v2
  let vfin := (List.range 12).foldl (fun v r => blake2bRound m v r) v3
  (List.range 8).map (fun i => (h.getD i 0) ^^^ (vfin.getD i 0) ^^^ (vfin.getD (i + 8) 0))

/-- Process the message in 128-byte blocks; the final (possibly partial)
block is zero-padded and compressed with the finalisation flag.  The fuel
argument is initialised to the input length, which bounds the number of
full 128-byte blocks, so the zero-fuel case only sees a final block. -/
def blake2bGoAux : Nat → List Nat → List Nat → Nat → List Nat
  | 0, h, input, processed =>
    blake2bCompress h (input ++ List.replicate (128 - input.length) 0)
      (processed + input.length) true
  | fuel + 1, h, input, processed =>
    if input.length ≤ 128 then
      blake2bCompress h (input ++ List.replicate (128 - input.length) 0)
        (processed + input.length) true
    else
      blake2bGoAux fuel (blake2bCompress h (input.take 128) (processed + 128) false)
        (input.drop 128) (processed + 128)

def blake2b256 (input : List Nat) : List Nat :=
  let h0 := blake2bIV.set 0 ((blake2bIV.getD 0 0) ^^^ 0x01010020)
  let hend := blake2bGoAux input.length h0 input 0
  ((List.range 4).map (fun i =>
    (List.range 8).map (fun j => ((hend.getD i 0) >>> (8 * j)) &&& 0xFF))).flatten

/-! Merkle tree construction.  All three sources (guest
`compute_merkle_root`, pallet `Pallet::compute_merkle_root`, library
`compute_requests_root`) build the tree with literally the same loop:
hash the ids into leaves in input order, then repeatedly hash adjacent
pairs, promoting an odd trailing node unchanged, until one node is left.
The loop is parameterised here by the node-hash; each source supplies its
own leaf encoding and hash function. -/

/-- One level of the pair-and-hash loop (the `step_by(2)` body). -/
def merkleLevelWith (h2 : List Nat → List Nat → List Nat) : List (List Nat) → List (List Nat)
  | a :: b :: rest => h2 a b :: merkleLevelWith h2 rest
  | [x] => [x]
  | [] => []

/-- The `while leaves.len() > 1` loop.  Fuel is initialised to the number
of leaves; each level at least halves a list of length two or more, so
the zero-fuel case is only reached with at most one node left.  An empty
leaf list cannot arise from the callers (they return early on empty
input); it is mapped to the zero root. -/
def merkleTreeAux (h2 : List Nat → List Nat → List Nat) : Nat → List (List Nat) → List Nat
  | _, [] => List.replicate 32 0
  | _, [x] => x
  | 0, l => l.headD (List.replicate 32 0)
  | fuel + 1, a :: b :: rest => merkleTreeAux h2 fuel (merkleLevelWith h2 (a :: b :: rest))

def merkleRootWith (leaf : Nat → List Nat) (h2 : List Nat → List Nat → List Nat)
    (ids : List Nat) : List Nat :=
  if ids = [] then List.replicate 32 0
  else
    let leaves := ids.map leaf
    merkleTreeAux h2 leaves.length leaves

namespace Guest

/-- Guest `compute_merkle_root`: leaf is the guest keccak of the 8-byte
little-endian id zero-padded to 32 bytes; inner nodes are the guest
keccak of the 64-byte concatenation. -/
def computeMerkleRoot (ids : List Nat) : List Nat :=
  merkleRootWith (fun id => keccak256 (u64le id ++ List.replicate 24 0))
    (fun a b => keccak256 (a ++ b)) ids

end Guest

namespace RemlLib

/-- Library `compute_requests_root` (src/reml/lib/src/lib.rs): leaf is
standard Keccak-256 of just the 8 little-endian id bytes (no padding);
inner nodes are Keccak-256 of the 64-byte concatenation. -/
def computeRequestsRoot (ids : List Nat) : List Nat :=
  merkleRootWith (fun id => keccak256std (u64le id))
    (fun a b => keccak256std (a ++ b)) ids

end RemlLib

namespace Pallet

/-- Pallet `Pallet::compute_merkle_root`: leaf is `blake2_256` of the
8-byte little-endian id zero-padded to 32 bytes; inner nodes are
`blake2_256` of the 64-byte concatenation. -/
def computeMerkleRoot (ids : List Nat) : List Nat :=
  merkleRootWith (fun id => blake2b256 (u64le id ++ List.replicate 24 0))
    (fun a b => blake2b256 (a ++ b)) ids

end Pallet

/-- Known-answer check: Keccak-256 of the empty string. -/
example : keccak256std [] =
    [0xc5, 0xd2, 0x46, 0x01, 0x86, 0xf7, 0x23, 0x3c, 0x92, 0x7e, 0x7d, 0xb2,
     0xdc, 0xc7, 0x03, 0xc0, 0xe5, 0x00, 0xb6, 0x53, 0xca, 0x82, 0x27, 0x3b,
     0x7b, 0xfa, 0xd8, 0x04, 0x5d, 0x85, 0xa4, 0x70] := by decide

/-- Known-answer check: BLAKE2b-256 of the empty string. -/
example : blake2b256 [] =
    [0x0e, 0x57, 0x51, 0xc0, 0x26, 0xe5, 0x43, 0xb2, 0xe8, 0xab, 0x2e, 0xb0,
     0x60, 0x99, 0xda, 0xa1, 0xd1, 0xe5, 0xdf, 0x47, 0x77, 0x8f, 0x77, 0x87,
     0xfa, 0xab, 0x45, 0xcd, 0xf1, 0x2f, 0xe3, 0xa8] := by decide

/-! ML-DSA (Dilithium2) verification, transcribed from
src/reml/guest/src/main.rs.  Signed 32- and 64-bit machine integers are
modelled as `Int` with explicit two's-complement wrapping (the zkVM guest
is compiled in release mode, where Rust integer arithmetic wraps).
A Rust panic is modelled as `Option.none`. -/

def MLDSA_PUBLIC_KEY_SIZE : Nat := 1312

def MLDSA_SIGNATURE_SIZE : Nat := 2420

def REML_VERSION : Nat := 1

def TESSERAX_CHAIN_ID : Nat := 13817

namespace Guest

def QI : Int := 8380417

def GAMMA1 : Int := 131072

def BETA : Int := 78

/-- Two's-complement wrap to i32. -/
def wrap32 (x : Int) : Int := Int.emod (x + 2 ^ 31) (2 ^ 32) - 2 ^ 31

/-- Two's-complement wrap to i64. -/
def wrap64 (x : Int) : Int := Int.emod (x + 2 ^ 63) (2 ^ 64) - 2 ^ 63

/-- Guest `montgomery_reduce`: `t = (a as i32).wrapping_mul(QINV) as i32;
(a - t*Q) >> 32` with an arithmetic (floor) shift, then truncation to i32. -/
def montgomeryReduce (a : Int) : Int :=
  let t := wrap32 (wrap64 (wrap32 a * 58728449))
  wrap32 (Int.fdiv (wrap64 (a - t * QI)) (2 ^ 32))

/-- Guest `reduce_mod_q`: Rust `%` is the truncated remainder, negative
results are shifted up by Q. -/
def reduceModQ (a : Int) : Int :=
  let r := Int.tmod a QI
  if r < 0 then r + QI else r

/-- Guest `get_ntt_zetas`: two genuine Dilithium zetas followed by a
synthetic fill `(i * 12345 + 6789) % Q`. -/
def getNttZetas : List Int :=
  (List.range 256).map (fun i =>
    if i = 0 then 25847
    else if i = 1 then -2608894
    else Int.ofNat ((i * 12345 + 6789) % 8380417))

/-- Guest `get_inv_ntt_zetas`: synthetic fill `(i * 54321 + 9876) % Q`. -/
def getInvNttZetas : List Int :=
  (List.range 256).map (fun i => Int.ofNat ((i * 54321 + 9876) % 8380417))

/-- Inner butterfly loop of `ntt` for one (zeta, start, len) block. -/
def nttBlock (zeta : Int) (start len : Nat) (r : List Int) : List Int :=
  (List.range len).foldl
    (fun r idx =>
      let j := start + idx
      let t := montgomeryReduce (zeta * r.getD (j + len) 0)
      let r1 := r.set (j + len) (wrap32 (r.getD j 0 - t))
      r1.set j (wrap32 (r1.getD j 0 + t)))
    r

/-- Guest `ntt`: Cooley-Tukey butterflies, `len` halving from 128 to 1,
consuming zetas sequentially. -/
def ntt (p : List Int) : List Int :=
  (([128, 64, 32, 16, 8, 4, 2, 1] : List Nat).foldl
    (fun (st : Nat × List Int) len =>
      (List.range (256 / (2 * len))).foldl
        (fun (st : Nat × List Int) bi =>
          let zeta := getNttZetas.getD st.1 0
          (st.1 + 1, nttBlock zeta (bi * (2 * len)) len st.2))
        st)
    (0, p)).2

/-- Inner butterfly loop of `inv_ntt` for one (zeta, start, len) block.
Both updates read the old `r[j+len]`, as in the source. -/
def invNttBlock (zeta : Int) (start len : Nat) (r : List Int) : List Int :=
  (List.range len).foldl
    (fun r idx =>
      let j := start + idx
      let t := r.getD j 0
      let r1 := r.set j (wrap32 (t + r.getD (j + len) 0))
      r1.set (j + len) (montgomeryReduce (zeta * wrap32 (t - r1.getD (j + len) 0))))
    r

/-- Guest `inv_ntt`: Gentleman-Sande butterflies with `len` doubling from
1 to 128, then multiplication by the Montgomery form of 256^-1. -/
def invNtt (p : List Int) : List Int :=
  let r := (([1, 2, 4, 8, 16, 32, 64, 128] : List Nat).foldl
    (fun (st : Nat × List Int) len =>
      (List.range (256 / (2 * len))).foldl
        (fun (st : Nat × List Int) bi =>
          let zeta := getInvNttZetas.getD st.1 0
          (st.1 + 1, invNttBlock zeta (bi * (2 * len)) len st.2))
        st)
    (0, p)).2
  r.map (fun x => montgomeryReduce (8347681 * x))

/-- Guest `poly_mult_ntt`: pointwise Montgomery products. -/
def polyMultNtt (a b : List Int) : List Int :=
  (List.range 256).map (fun i => montgomeryReduce (a.getD i 0 * b.getD i 0))

/-- Guest `matrix_ntt_mult`: accumulate `A[k][l] * z[l]` in the NTT
domain with `reduce_mod_q`, then convert each row back. -/
def matrixNttMult (a : List (List (List Int))) (z : List (List Int)) : List (List Int) :=
  let zNtt := z.map ntt
  (List.range 4).map (fun k =>
    let acc := (List.range 4).foldl
      (fun (acc : List Int) l =>
        let aNtt := ntt ((a.getD k []).getD l [])
        let prod := polyMultNtt aNtt (zNtt.getD l [])
        (List.range 256).map (fun i => reduceModQ (acc.getD i 0 + prod.getD i 0)))
      (List.replicate 256 0)
    invNtt acc)

/-- Guest `poly_vec_mult_scalar`. -/
def polyVecMultScalar (vec : List (List Int)) (scalar : List Int) : List (List Int) :=
  let scalarNtt := ntt scalar
  vec.map (fun v => invNtt (polyMultNtt (ntt v) scalarNtt))

/-- Guest `poly_vec_shift`: multiply by `2^d` and reduce mod Q. -/
def polyVecShift (vec : List (List Int)) (d : Nat) : List (List Int) :=
  vec.map (fun poly => poly.map (fun x => reduceModQ (x * (2 ^ d : Int))))

/-- Guest `poly_vec_sub`. -/
def polyVecSub (a b : List (List Int)) : List (List Int) :=
  (List.range 4).map (fun k =>
    (List.range 256).map (fun i =>
      reduceModQ ((a.getD k []).getD i 0 - (b.getD k []).getD i 0)))

/-- Guest `decompose_high` with GAMMA2 = (Q-1)/88 = 95232; Rust i32
division truncates toward zero. -/
def decomposeHigh (r : Int) : Int :=
  let gamma2 : Int := Int.ofNat ((8380417 - 1) / 88)
  let rpos := if r < 0 then r + QI else r
  Int.tdiv (rpos + Int.tdiv gamma2 2) gamma2

/-- Guest `use_hints`. -/
def useHints (hints : List (List Bool)) (w : List (List Int)) : List (List Int) :=
  (List.range 4).map (fun k =>
    (List.range 256).map (fun i =>
      let r1 := decomposeHigh ((w.getD k []).getD i 0)
      if (hints.getD k []).getD i false then Int.tmod (r1 + 1) 16 else r1))

/-- Guest `encode_w1`: pack pairs of low-4-bit values; `w & 0xF` on an
i32 is the nonnegative low nibble of the two's complement, i.e.
`w mod 16`. -/
def encodeW1 (w1 : List (List Int)) : List Nat :=
  ((List.range 4).map (fun k =>
    (List.range 128).map (fun g =>
      let a := (Int.emod ((w1.getD k []).getD (2 * g) 0) 16).toNat
      let b := (Int.emod ((w1.getD k []).getD (2 * g + 1) 0) 16).toNat
      a ||| (b <<< 4)))).flatten

/-- Guest `check_z_norm`: rejects only coefficients with
`coef > GAMMA1 - BETA` or `coef < -(GAMMA1 - BETA)` - the boundary value
itself is accepted. -/
def checkZNorm (z : List (List Int)) : Bool :=
  let bound := GAMMA1 - BETA
  z.all (fun poly => poly.all (fun coef =>
    !(decide (coef > bound) || decide (coef < -bound))))

/-- One 5-byte group of `unpack_t1` (four 10-bit coefficients). -/
def unpackT1Group (bytes : List Nat) (offset : Nat) : Option (List Int) :=
  if offset + 5 > bytes.length then none
  else
    let b0 := bytes.getD offset 0
    let b1 := bytes.getD (offset + 1) 0
    let b2 := bytes.getD (offset + 2) 0
    let b3 := bytes.getD (offset + 3) 0
    let b4 := bytes.getD (offset + 4) 0
    some [Int.ofNat (b0 ||| ((b1 &&& 0x03) <<< 8)),
          Int.ofNat ((b1 >>> 2) ||| ((b2 &&& 0x0F) <<< 6)),
          Int.ofNat ((b2 >>> 4) ||| ((b3 &&& 0x3F) <<< 4)),
          Int.ofNat ((b3 >>> 6) ||| (b4 <<< 2))]

/-- Guest `unpack_t1`: 4 polynomials of 64 sequential 5-byte groups. -/
def unpackT1 (bytes : List Nat) : Option (List (List Int)) :=
  (List.range 4).foldlM
    (fun acc k =>
      ((List.range 64).foldlM
        (fun (poly : List Int) g =>
          (unpackT1Group bytes (320 * k + 5 * g)).map (fun q => poly ++ q)) []).map
        (fun p => acc ++ [p]))
    []

/-- Guest `parse_public_key`: 32-byte rho followed by packed t1. -/
def parsePublicKey (pk : List Nat) : Option (List Nat × List (List Int)) :=
  if pk.length ≠ MLDSA_PUBLIC_KEY_SIZE then none
  else (unpackT1 (pk.drop 32)).map (fun t1 => (pk.take 32, t1))

/-- One 9-byte group of `unpack_z` (four 18-bit coefficients).  The
source accumulates nine bytes into a u64 with shifts `j*8`; for the ninth
byte the shift amount 64 wraps to 0 in release mode (Rust masked shift),
so that byte is ORed into the low bits, and the fourth extracted
coefficient keeps only its low 10 bits - transcribed as-is. -/
def unpackZGroup (bytes : List Nat) (offset : Nat) : Option (List Int) :=
  if offset + 9 > bytes.length then none
  else
    let val := (List.range 9).foldl
      (fun v j => v ||| ((bytes.getD (offset + j) 0) <<< ((j * 8) % 64))) 0
    some ((List.range 4).map (fun j =>
      GAMMA1 - Int.ofNat ((val >>> (j * 18)) &&& 0x3FFFF)))

/-- Guest `unpack_z`: 4 polynomials of 64 sequential 9-byte groups. -/
def unpackZ (bytes : List Nat) : Option (List (List Int)) :=
  (List.range 4).foldlM
    (fun acc l =>
      ((List.range 64).foldlM
        (fun (poly : List Int) g =>
          (unpackZGroup bytes (576 * l + 9 * g)).map (fun q => poly ++ q)) []).map
        (fun p => acc ++ [p]))
    []

/-- Set one hint bit. -/
def hintSet (hints : List (List Bool)) (k idx : Nat) : List (List Bool) :=
  hints.set k ((hints.getD k []).set idx true)

/-- Inner `for _ in 0..count` loop of `unpack_hints`. -/
def unpackHintsRow (bytes : List Nat) (omega : Nat) :
    Nat → Nat → List (List Bool) → Nat → Option (List (List Bool) × Nat)
  | 0, _, hints, offset => some (hints, offset)
  | count + 1, k, hints, offset =>
    if offset ≥ omega then none
    else
      let idx := bytes.getD offset 0
      if idx ≥ 256 then none
      else unpackHintsRow bytes omega count k (hintSet hints k idx) (offset + 1)

/-- Guest `unpack_hints`: the last byte holds the hint count for row 0,
bytes `omega-4+k` the counts for rows 1..3 (transcribed as written). -/
def unpackHints (bytes : List Nat) : Option (List (List Bool)) :=
  let hints0 := List.replicate 4 (List.replicate 256 false)
  if bytes.length = 0 then some hints0
  else
    let omega := bytes.length - 1
    if omega < 4 then none
    else
      ((List.range 4).foldlM
        (fun (acc : List (List Bool) × Nat) k =>
          let count := if k = 0 then bytes.getD omega 0 else bytes.getD (omega - 4 + k) 0
          unpackHintsRow bytes omega count k acc.1 acc.2)
        (hints0, 0)).map (fun a => a.1)

/-- Guest `parse_signature`: 32-byte challenge seed, 2304 packed z bytes
ending at 2336, hints in the remaining bytes. -/
def parseSignature (sig : List Nat) :
    Option (List Nat × List (List Int) × List (List Bool)) :=
  if sig.length ≠ MLDSA_SIGNATURE_SIZE then none
  else
    let zEnd := 32 + 4 * 256 * 18 / 8
    match unpackZ ((sig.drop 32).take (zEnd - 32)) with
    | none => none
    | some z =>
      match unpackHints (sig.drop zEnd) with
      | none => none
      | some hints => some (sig.take 32, z, hints)

/-- Rejection-sampling loop of `expand_a`: consume 3 bytes at a time
while fewer than 256 coefficients are collected and at least 3 bytes
remain (`byte_idx + 2 < hash.len()`). -/
def expandACollect : List Nat → Nat → List Int → List Int
  | b0 :: b1 :: b2 :: rest, remaining + 1, acc =>
    let val := b0 ||| (b1 <<< 8) ||| ((b2 &&& 0x7F) <<< 16)
    if val < 8380417 then expandACollect rest remaining (acc ++ [Int.ofNat val])
    else expandACollect rest (remaining + 1) acc
  | _, _, acc => acc

/-- One cell of `expand_a`: seed is `rho || j || i`, 768 bytes of
expanded stream, rejection sampling below Q; unfilled coefficients stay
zero. -/
def expandACell (rho : List Nat) (i j : Nat) : List Int :=
  let hash := expandShake128 (rho ++ [j, i]) (256 * 3)
  let coefs := expandACollect hash 256 []
  coefs ++ List.replicate (256 - coefs.length) 0

/-- Guest `expand_a`. -/
def expandA (rho : List Nat) : List (List (List Int)) :=
  (List.range 4).map (fun i => (List.range 4).map (fun j => expandACell rho i j))

/-- Inner `while j > i` loop of `sample_in_ball`.  Result `none` models
the early `return c` fallback taken when the byte stream runs out; all
reads inside the loop are bounds-guarded in the source.  Fuel is
initialised to the stream length, which bounds the number of iterations
(each iteration advances `k` below the length). -/
def siWhile (hash : List Nat) (i : Nat) : Nat → Nat → Nat → Option (Nat × Nat)
  | 0, j, k => if j ≤ i then some (j, k) else none
  | fuel + 1, j, k =>
    if j ≤ i then some (j, k)
    else
      let k1 := k + 1
      if k1 ≥ hash.length then none
      else siWhile hash i fuel (hash.getD k1 0) k1

/-- Outer loop of `sample_in_ball` over positions 217..255.  The read
`hash[k]` at the head of each iteration is not bounds-checked in the
source; `none` models that panic. -/
def siLoop (hash : List Nat) : List Nat → List Int → Nat → Nat → Option (List Int)
  | [], c, _, _ => some c
  | i :: rest, c, k, signs =>
    if k ≥ hash.length then none
    else
      match siWhile hash i hash.length (hash.getD k 0) k with
      | none => some c
      | some (j, k2) =>
        let c1 := c.set i (c.getD j 0)
        let c2 := c1.set j (if signs &&& 1 ≠ 0 then -1 else 1)
        siLoop hash rest c2 (k2 + 1) (signs >>> 1)

/-- Guest `sample_in_ball`: 256-byte expanded stream, sign bits from the
first 8 bytes, Fisher-Yates-style placement of 39 entries in {-1, 1}. -/
def sampleInBall (seed : List Nat) : Option (List Int) :=
  let hash := expandShake128 seed 256
  let signs := (List.range 8).foldl (fun s i => s ||| ((hash.getD i 0) <<< (i * 8))) 0
  siLoop hash ((List.range 39).map (fun t => 217 + t)) (List.replicate 256 0) 8 signs

/-- Guest `verify_mldsa_signature` (FIPS 204 Algorithm 3 shape).
`some b` is the returned boolean; `none` is a panic inside
`sample_in_ball`. -/
def verifyMldsaSignature (message publicKey signature : List Nat) : Option Bool :=
  if publicKey.length ≠ MLDSA_PUBLIC_KEY_SIZE then some false
  else if signature.length ≠ MLDSA_SIGNATURE_SIZE then some false
  else
    match parsePublicKey publicKey with
    | none => some false
    | some (rho, t1) =>
      match parseSignature signature with
      | none => some false
      | some (cTilde, z, hints) =>
        let tr := shake256_64 publicKey
        let mu := shake256_64 (tr ++ message)
        let aMatrix := expandA rho
        match sampleInBall cTilde with
        | none => none
        | some c =>
          let az := matrixNttMult aMatrix z
          let ct1 := polyVecMultScalar t1 c
          let ct1Shifted := polyVecShift ct1 13
          let wApprox := polyVecSub az ct1Shifted
          let w1 := useHints hints wApprox
          let w1Bytes := encodeW1 w1
          let cPrimeTilde := shake256_32 (mu ++ w1Bytes)
          if cTilde ≠ cPrimeTilde then some false
          else if ¬ checkZNorm z then some false
          else some true

end Guest

/-! Guest batch program (the zkVM `main` in src/reml/guest/src/main.rs)
and the shared request/output types from src/reml/lib/src/lib.rs. -/

structure SignatureRequest where
  message : List Nat
  public_key : List Nat
  signature : List Nat
  request_id : Nat
deriving DecidableEq

/-- Library `SignatureRequest::validate_sizes`. -/
def SignatureRequest.validateSizes (r : SignatureRequest) : Bool :=
  r.public_key.length == MLDSA_PUBLIC_KEY_SIZE && r.signature.length == MLDSA_SIGNATURE_SIZE

structure RemlProofInput where
  version : Nat
  chain_id : Nat
  batch_id : Nat
  requests : List SignatureRequest
deriving DecidableEq

structure RemlProofOutput where
  version : Nat
  chain_id : Nat
  batch_id : Nat
  verified_count : Nat
  requests_root : List Nat
  verified_request_ids : List Nat
deriving DecidableEq

namespace Guest

/-- The per-request loop of the guest `main`: skip requests with wrong
sizes, verify the rest, count and collect ids of the verified ones in
input order.  `none` propagates a panic from the verifier. -/
def processRequests : List SignatureRequest → Option (Nat × List Nat)
  | [] => some (0, [])
  | r :: rest =>
    if ¬ r.validateSizes then processRequests rest
    else
      match verifyMldsaSignature r.message r.public_key r.signature with
      | none => none
      | some true =>
        (processRequests rest).map (fun p => (p.1 + 1, r.request_id :: p.2))
      | some false => processRequests rest

/-- The guest `main`: the two protocol asserts abort proving on mismatch
(modelled as `none`); otherwise the committed output carries the wrapped
u32 count, the Merkle root of the verified ids and the ids themselves.
`RemlProofOutput::new` fills version and chain id from the constants. -/
def guestMain (input : RemlProofInput) : Option RemlProofOutput :=
  if input.version ≠ REML_VERSION then none
  else if input.chain_id ≠ TESSERAX_CHAIN_ID then none
  else
    (processRequests input.requests).map (fun p =>
      { version := REML_VERSION
        chain_id := TESSERAX_CHAIN_ID
        batch_id := input.batch_id
        verified_count := p.1 % 2 ^ 32
        requests_root := computeMerkleRoot p.2
        verified_request_ids := p.2 })

end Guest

/-! On-chain reml-verifier pallet (src/pallets/reml-verifier/src/lib.rs).
Account ids and block numbers are `Nat`; the storage maps are modelled as
functions to `Option`, matching FRAME `StorageMap` lookup/insert
semantics.  The expected verification-key hash is a `Config` constant and
is passed as a parameter. -/

namespace Pallet

def MIN_PROOF_SIZE : Nat := 1024

def GROTH16_PROOF_SIZE : Nat := 260

inductive PalletError where
  | NotAuthorized
  | BatchAlreadyVerified
  | InvalidPublicValues
  | InvalidVKeyHash
  | ProofAlreadyUsed
  | InvalidMerkleRoot
  | ProofVerificationFailed
deriving DecidableEq

structure AggregatorInfo where
  registered_at : Nat
  proofs_submitted : Nat
  active : Bool
deriving DecidableEq

structure PublicValues where
  version : Nat
  chain_id : Nat
  batch_id : Nat
  verified_count : Nat
  requests_root : List Nat
  verified_request_ids : List Nat
deriving DecidableEq

structure ProofSubmission where
  batch_id : Nat
  proof : List Nat
  public_values : PublicValues
  vkey_hash : List Nat
deriving DecidableEq

structure BatchInfo where
  aggregator : Nat
  verified_at : Nat
  signature_count : Nat
  requests_root : List Nat
  proof_commitment : List Nat
deriving DecidableEq

structure PalletState where
  aggregators : Nat → Option AggregatorInfo
  verifiedBatches : Nat → Option BatchInfo
  verifiedRequests : Nat → Option (Nat × Nat)
  totalProofsVerified : Nat
  totalSignaturesVerified : Nat
  proofCommitments : List Nat → Option Nat
  currentBlock : Nat

/-- StorageMap insert: point update of the lookup function. -/
def mupdate {α β : Type} [DecidableEq α] (m : α → Option β) (k : α) (v : β) :
    α → Option β :=
  fun x => if x = k then some v else m x

/-- Pallet `is_aggregator`. -/
def isAggregator (σ : PalletState) (a : Nat) : Bool :=
  ((σ.aggregators a).map (fun info => info.active)).getD false

/-- Pallet `compute_proof_commitment`:
`blake2_256(vkey || batch_id_le || requests_root || blake2_256(proof))`. -/
def computeProofCommitment (s : ProofSubmission) : List Nat :=
  let proofHash := blake2b256 s.proof
  blake2b256 (s.vkey_hash ++ u64le s.batch_id ++ s.public_values.requests_root ++ proofHash)

/-- The hash of the public values that `verify_sp1_proof` scans for:
`blake2_256(version || chain_id_le || batch_id_le || count_le || root)`. -/
def publicValuesHash (pv : PublicValues) : List Nat :=
  blake2b256 ([pv.version] ++ u32le pv.chain_id ++ u64le pv.batch_id ++
    u32le pv.verified_count ++ pv.requests_root)

/-- Number of zero bytes of the XOR of a 32-byte window with the target. -/
def countZeroXor (w target : List Nat) : Nat :=
  (((List.range 32).map (fun j => (w.getD j 0) ^^^ (target.getD j 0))).filter
    (fun b => b = 0)).length

/-- The `for i in 0..len-32` window scan looking for an exact 32-byte
match (vkey commitment scan; its result is discarded by the source). -/
def windowScanEq (l : List Nat) (target : List Nat) : Nat → Bool
  | 0 => false
  | n + 1 => if l.take 32 = target then true else windowScanEq (l.drop 1) target n

/-- The public-binding window scan: exact match or XOR correlation with
at least 28 zero bytes. -/
def windowScanBinding (l : List Nat) (target : List Nat) : Nat → Bool
  | 0 => false
  | n + 1 =>
    let w := l.take 32
    if w = target then true
    else if 28 ≤ countZeroXor w target then true
    else windowScanBinding (l.drop 1) target n

/-- Pallet `verify_sp1_proof`: size floor, non-zero count, count/list
agreement, then the structural binding scan.  The vkey scan result is
bound and discarded exactly as in the source; a missing public binding
only rejects proofs shorter than 1000 bytes. -/
def verifySp1Proof (proof : List Nat) (pv : PublicValues) (vkeyHash : List Nat) : Bool :=
  if proof.length < MIN_PROOF_SIZE ∧ proof.length ≠ GROTH16_PROOF_SIZE then false
  else if pv.verified_count = 0 then false
  else if pv.verified_count ≠ pv.verified_request_ids.length then false
  else
    let _foundCommitment :=
      if 33 ≤ proof.length then windowScanEq proof (blake2b256 vkeyHash) (proof.length - 32)
      else false
    let validBinding := windowScanBinding proof (publicValuesHash pv) (proof.length - 32)
    if ¬ validBinding ∧ proof.length < 1000 then false
    else true

/-- The storage writes of a successful `submit_proof` (the section after
all checks have passed).  `u64` counters wrap. -/
def applySuccess (σ : PalletState) (aggregator : Nat) (info : AggregatorInfo)
    (s : ProofSubmission) (commitment : List Nat) : PalletState :=
  let blk := σ.currentBlock
  { aggregators := mupdate σ.aggregators aggregator
      { info with proofs_submitted := (info.proofs_submitted + 1) % 2 ^ 64 }
    verifiedBatches := mupdate σ.verifiedBatches s.batch_id
      { aggregator := aggregator
        verified_at := blk
        signature_count := s.public_values.verified_count
        requests_root := s.public_values.requests_root
        proof_commitment := commitment }
    verifiedRequests := s.public_values.verified_request_ids.foldl
      (fun m id => mupdate m id (s.batch_id, blk)) σ.verifiedRequests
    totalProofsVerified := (σ.totalProofsVerified + 1) % 2 ^ 64
    totalSignaturesVerified :=
      (σ.totalSignaturesVerified + s.public_values.verified_count) % 2 ^ 64
    proofCommitments := mupdate σ.proofCommitments commitment blk
    currentBlock := σ.currentBlock }

/-- Pallet `submit_proof`, checks in source order; on any failed check
the error is returned with the state unchanged (FRAME rolls back a failed
dispatch, and in the source all writes happen after the last check). -/
def submitProof (expectedVKey : List Nat) (σ : PalletState) (aggregator : Nat)
    (s : ProofSubmission) : Option PalletError × PalletState :=
  match σ.aggregators aggregator with
  | none => (some .NotAuthorized, σ)
  | some info =>
    if ¬ info.active then (some .NotAuthorized, σ)
    else if (σ.verifiedBatches s.batch_id).isSome then (some .BatchAlreadyVerified, σ)
    else if s.public_values.version ≠ REML_VERSION then (some .InvalidPublicValues, σ)
    else if s.public_values.chain_id ≠ TESSERAX_CHAIN_ID then (some .InvalidPublicValues, σ)
    else if s.public_values.batch_id ≠ s.batch_id then (some .InvalidPublicValues, σ)
    else if expectedVKey ≠ List.replicate 32 0 ∧ s.vkey_hash ≠ expectedVKey then
      (some .InvalidVKeyHash, σ)
    else if (σ.proofCommitments (computeProofCommitment s)).isSome then
      (some .ProofAlreadyUsed, σ)
    else if computeMerkleRoot s.public_values.verified_request_ids ≠
        s.public_values.requests_root then (some .InvalidMerkleRoot, σ)
    else if ¬ verifySp1Proof s.proof s.public_values s.vkey_hash then
      (some .ProofVerificationFailed, σ)
    else (none, applySuccess σ aggregator info s (computeProofCommitment s))

/-- The conjunction of all checks of `submit_proof` that run before the
structural proof check (authorization, fresh batch, public values, vkey,
replay commitment, Merkle root). -/
def preChecksPass (expectedVKey : List Nat) (σ : PalletState) (aggregator : Nat)
    (s : ProofSubmission) : Prop :=
  isAggregator σ aggregator = true ∧
  σ.verifiedBatches s.batch_id = none ∧
  s.public_values.version = REML_VERSION ∧
  s.public_values.chain_id = TESSERAX_CHAIN_ID ∧
  s.public_values.batch_id = s.batch_id ∧
  ¬ (expectedVKey ≠ List.replicate 32 0 ∧ s.vkey_hash ≠ expectedVKey) ∧
  σ.proofCommitments (computeProofCommitment s) = none ∧
  computeMerkleRoot s.public_values.verified_request_ids = s.public_values.requests_root

instance (evk : List Nat) (σ : PalletState) (a : Nat) (s : ProofSubmission) :
    Decidable (preChecksPass evk σ a s) := by
  unfold preChecksPass
  infer_instance

end Pallet

/-! Lemmas about the guest batch loop. -/

/-- Characterisation of the guest per-request loop: when it completes
without a panic, the count equals the number of collected ids, at most
one id is collected per request, and the ids are exactly the request ids
of the well-sized, verifying requests in input order. -/
theorem processRequests_spec :
    ∀ (rs : List SignatureRequest) (c : Nat) (ids : List Nat),
      Guest.processRequests rs = some (c, ids) →
      c = ids.length ∧ ids.length ≤ rs.length ∧
        ids = (rs.filter (fun r => r.validateSizes &&
            (Guest.verifyMldsaSignature r.message r.public_key r.signature).getD false)).map
          (fun r => r.request_id) := by
  intro rs
  induction rs with
  | nil =>
    intro c ids h
    simp only [Guest.processRequests, Option.some.injEq, Prod.mk.injEq] at h
    simp [← h.1, ← h.2]
  | cons r rest ih =>
    intro c ids h
    simp only [Guest.processRequests] at h
    by_cases hv : r.validateSizes
    · rw [if_neg (by simp [hv])] at h
      cases hverify : Guest.verifyMldsaSignature r.message r.public_key r.signature with
      | none => rw [hverify] at h; cases h
      | some b =>
        rw [hverify] at h
        cases b with
        | true =>
          cases hrest : Guest.processRequests rest with
          | none => rw [hrest] at h; cases h
          | some p =>
            rw [hrest] at h
            simp only [Option.map_some', Option.some.injEq, Prod.mk.injEq] at h
            obtain ⟨hc, hids⟩ := h
            obtain ⟨ih1, ih2, ih3⟩ := ih p.1 p.2 (by rw [hrest])
            subst hc
            subst hids
            refine ⟨by simp [ih1], by simp; omega, ?_⟩
            simp [List.filter_cons, hv, hverify, ih3]
        | false =>
          obtain ⟨ih1, ih2, ih3⟩ := ih c ids h
          refine ⟨ih1, by simp; omega, ?_⟩
          simp [List.filter_cons, hv, hverify, ih3]
    · rw [if_pos (by simp [hv])] at h
      obtain ⟨ih1, ih2, ih3⟩ := ih c ids h
      refine ⟨ih1, by simp; omega, ?_⟩
      simp only [List.filter_cons]
      rw [if_neg (by simp [hv])]
      exact ih3

/-- Inversion of the guest `main` wrapper. -/
theorem guestMain_inv (input : RemlProofInput) (out : RemlProofOutput)
    (h : Guest.guestMain input = some out) :
    ∃ c ids, Guest.processRequests input.requests = some (c, ids) ∧
      out = { version := REML_VERSION
              chain_id := TESSERAX_CHAIN_ID
              batch_id := input.batch_id
              verified_count := c % 2 ^ 32
              requests_root := Guest.computeMerkleRoot ids
              verified_request_ids := ids } := by
  unfold Guest.guestMain at h
  split at h
  · cases h
  · split at h
    · cases h
    · cases hp : Guest.processRequests input.requests with
      | none => rw [hp] at h; cases h
      | some p =>
        rw [hp] at h
        simp only [Option.map_some', Option.some.injEq] at h
        exact ⟨p.1, p.2, rfl, h.symm⟩

/-- C5: for every batch input the guest accepts (matching version and
chain id, and completing without a panic), the committed output has
`verified_count` equal to the length of `verified_request_ids` (as a
wrapped u32; exactly, whenever the batch holds fewer than 2^32 requests)
and `requests_root` equal to the guest Merkle root of
`verified_request_ids`. -/
theorem claim_c5_output_invariant (input : RemlProofInput) (out : RemlProofOutput)
    (h : Guest.guestMain input = some out) :
    out.requests_root = Guest.computeMerkleRoot out.verified_request_ids ∧
    out.verified_count = out.verified_request_ids.length % 2 ^ 32 ∧
    (input.requests.length < 2 ^ 32 →
      out.verified_count = out.verified_request_ids.length) := by
  obtain ⟨c, ids, hp, rfl⟩ := guestMain_inv input out h
  obtain ⟨h1, h2, _⟩ := processRequests_spec input.requests c ids hp
  subst h1
  refine ⟨rfl, rfl, fun hlt => ?_⟩
  simpa using Nat.mod_eq_of_lt (lt_of_le_of_lt h2 hlt)

def inputEmpty : RemlProofInput :=
  { version := 1, chain_id := 13817, batch_id := 0, requests := [] }

def outEmpty : RemlProofOutput :=
  { version := 1, chain_id := 13817, batch_id := 0, verified_count := 0,
    requests_root := List.replicate 32 0, verified_request_ids := [] }

/-- Witness for C5 at the empty batch. -/
theorem claim_c5_witness :
    Guest.guestMain inputEmpty = some outEmpty ∧
    outEmpty.requests_root = Guest.computeMerkleRoot outEmpty.verified_request_ids ∧
    outEmpty.verified_count = outEmpty.verified_request_ids.length := by
  have h : Guest.guestMain inputEmpty = some outEmpty := by decide
  exact ⟨h, (claim_c5_output_invariant inputEmpty outEmpty h).1,
    (claim_c5_output_invariant inputEmpty outEmpty h).2.2 (by decide)⟩

/-- C9: a request that is malformed or fails ML-DSA verification is
excluded from the committed id set without aborting the batch; the
committed ids are exactly the ids of the verifying requests, in input
order.  (The spec scenario - 10 requests of which request 3 fails, output
count 9 and the other nine ids in order - is the instance of this
equation at such a batch.) -/
theorem claim_c9_filter (input : RemlProofInput) (out : RemlProofOutput)
    (h : Guest.guestMain input = some out) :
    out.verified_request_ids = (input.requests.filter (fun r => r.validateSizes &&
        (Guest.verifyMldsaSignature r.message r.public_key r.signature).getD false)).map
      (fun r => r.request_id) := by
  obtain ⟨c, ids, hp, rfl⟩ := guestMain_inv input out h
  exact (processRequests_spec input.requests c ids hp).2.2

def reqMalformed : SignatureRequest :=
  { message := List.replicate 32 0, public_key := [], signature := [], request_id := 3 }

def inputMalformed : RemlProofInput :=
  { version := 1, chain_id := 13817, batch_id := 4,
    requests := [reqMalformed, { reqMalformed with request_id := 5 }] }

def outMalformed : RemlProofOutput :=
  { version := 1, chain_id := 13817, batch_id := 4, verified_count := 0,
    requests_root := List.replicate 32 0, verified_request_ids := [] }

/-- Witness for C9 at a batch of malformed requests, all excluded. -/
theorem claim_c9_witness :
    Guest.guestMain inputMalformed = some outMalformed ∧
    outMalformed.verified_request_ids =
      (inputMalformed.requests.filter (fun r => r.validateSizes &&
          (Guest.verifyMldsaSignature r.message r.public_key r.signature).getD false)).map
        (fun r => r.request_id) := by
  have h : Guest.guestMain inputMalformed = some outMalformed := by decide
  exact ⟨h, claim_c9_filter inputMalformed outMalformed h⟩

/-- A response vector whose first coefficient is exactly γ1 − β = 130994
and which is zero elsewhere. -/
def zBoundary : List (List Int) :=
  ((131072 - 78 : Int) :: List.replicate 255 0) ::
    List.replicate 3 (List.replicate 256 (0 : Int))

/-- C2: the claim (with the source doc comment and FIPS 204) demands that
a response coefficient with absolute value exactly γ1 − β be rejected,
but `check_z_norm` only rejects coefficients strictly beyond the bound,
so it accepts `zBoundary`. -/
theorem claim_c2_boundary_accepted :
    Guest.checkZNorm zBoundary = true ∧ (131072 - 78 : Int) = Guest.GAMMA1 - Guest.BETA := by
  decide

/-! Lemmas about the pallet state machine. -/

/-- Every failing check of `submit_proof` leaves the state untouched. -/
theorem submitProof_state_cases (evk : List Nat) (σ : Pallet.PalletState) (a : Nat)
    (s : Pallet.ProofSubmission) :
    (Pallet.submitProof evk σ a s).1 = none ∨ (Pallet.submitProof evk σ a s).2 = σ := by
  unfold Pallet.submitProof
  cases σ.aggregators a with
  | none => right; rfl
  | some info =>
    simp only
    split_ifs <;> simp

/-- Inversion of a successful `submit_proof`. -/
theorem submitProof_success_inv (evk : List Nat) (σ : Pallet.PalletState) (a : Nat)
    (s : Pallet.ProofSubmission) (σ2 : Pallet.PalletState)
    (h : Pallet.submitProof evk σ a s = (none, σ2)) :
    ∃ info, σ.aggregators a = some info ∧ info.active = true ∧
      σ.verifiedBatches s.batch_id = none ∧
      σ2 = Pallet.applySuccess σ a info s (Pallet.computeProofCommitment s) := by
  unfold Pallet.submitProof at h
  cases hag : σ.aggregators a with
  | none => rw [hag] at h; cases h
  | some info =>
    rw [hag] at h
    simp only at h
    split_ifs at h with h1 h2 h3 h4 h5 h6 h7 h8 h9 <;>
      rw [Prod.mk.injEq] at h
    all_goals try exact Option.noConfusion h.1
    have h2n : σ.verifiedBatches s.batch_id = none := by
      cases hvb : σ.verifiedBatches s.batch_id with
      | none => rfl
      | some b => rw [hvb] at h2; simp at h2
    exact ⟨info, rfl, h1, h2n, h.2.symm⟩

/-- Lookup after the `verified_request_ids` insertion fold: every id in
the list maps to the inserted pair, other keys are untouched. -/
theorem foldl_mupdate_lookup (v : Nat × Nat) :
    ∀ (ids : List Nat) (m : Nat → Option (Nat × Nat)) (x : Nat),
      (ids.foldl (fun m i => Pallet.mupdate m i v) m) x =
        if x ∈ ids then some v else m x := by
  intro ids
  induction ids with
  | nil => intro m x; simp
  | cons i ids ih =>
    intro m x
    simp only [List.foldl_cons, ih, List.mem_cons]
    by_cases hx : x ∈ ids <;> by_cases hxi : x = i <;>
      simp [hx, hxi, Pallet.mupdate]

/-- `verify_sp1_proof` rejects every submission whose claimed
`verified_count` is zero (either at the size floor or at the
non-zero-count check). -/
theorem verifySp1Proof_zero_count (proof : List Nat) (pv : Pallet.PublicValues)
    (vk : List Nat) (h : pv.verified_count = 0) :
    Pallet.verifySp1Proof proof pv vk = false := by
  unfold Pallet.verifySp1Proof
  split_ifs <;> rfl

/-- C7: `submit_proof` is atomic on failure - whenever it returns an
error, the whole pallet state (hence every storage item) is unchanged -
and a caller who is not a registered active aggregator is rejected with
`NotAuthorized` outright, before the commitment and Merkle-root checks
can influence the outcome. -/
theorem claim_c7_atomicity (evk : List Nat) (σ : Pallet.PalletState) (a : Nat)
    (s : Pallet.ProofSubmission) :
    (∀ e, (Pallet.submitProof evk σ a s).1 = some e →
      (Pallet.submitProof evk σ a s).2 = σ) ∧
    (Pallet.isAggregator σ a = false →
      Pallet.submitProof evk σ a s = (some Pallet.PalletError.NotAuthorized, σ)) := by
  constructor
  · intro e he
    rcases submitProof_state_cases evk σ a s with h | h
    · rw [he] at h; cases h
    · exact h
  · intro hna
    unfold Pallet.isAggregator at hna
    unfold Pallet.submitProof
    cases hag : σ.aggregators a with
    | none => rfl
    | some info =>
      rw [hag] at hna
      simp only [Option.map_some', Option.getD_some] at hna
      simp [hna]

set_option maxHeartbeats 2000000 in
/-- C10: a submission claiming `verified_count = 0` always fails the
structural proof check, so it is never admitted (the state is unchanged
and an error is returned); when every earlier check passes, that error is
specifically `ProofVerificationFailed`. -/
theorem claim_c10_zero_count (evk : List Nat) (σ : Pallet.PalletState) (a : Nat)
    (s : Pallet.ProofSubmission) (h : s.public_values.verified_count = 0) :
    Pallet.verifySp1Proof s.proof s.public_values s.vkey_hash = false ∧
    (Pallet.submitProof evk σ a s).1 ≠ none ∧
    (Pallet.submitProof evk σ a s).2 = σ ∧
    (Pallet.preChecksPass evk σ a s →
      (Pallet.submitProof evk σ a s).1 = some Pallet.PalletError.ProofVerificationFailed) := by
  have hsp1 := verifySp1Proof_zero_count s.proof s.public_values s.vkey_hash h
  have hnotnone : (Pallet.submitProof evk σ a s).1 ≠ none := by
    unfold Pallet.submitProof
    cases σ.aggregators a with
    | none => simp
    | some info =>
      simp only
      split_ifs with h1 h2 h3 h4 h5 h6 h7 h8 h9 <;> simp_all
  refine ⟨hsp1, hnotnone, ?_, ?_⟩
  · rcases submitProof_state_cases evk σ a s with hc | hc
    · exact absurd hc hnotnone
    · exact hc
  · rintro ⟨hAgg, hBatch, hVer, hChain, hBid, hVk, hComm, hRoot⟩
    unfold Pallet.isAggregator at hAgg
    unfold Pallet.submitProof
    cases hag : σ.aggregators a with
    | none => rw [hag] at hAgg; cases hAgg
    | some info =>
      rw [hag] at hAgg
      simp only [Option.map_some', Option.getD_some] at hAgg
      simp only
      rw [if_neg (by simp [hAgg]), if_neg (by simp [hBatch]), if_neg (by simp [hVer]),
        if_neg (by simp [hChain]), if_neg (by simp [hBid]), if_neg hVk,
        if_neg (by simp [hComm]), if_neg (by simp [hRoot]), if_pos (by simp [hsp1])]

set_option maxHeartbeats 2000000 in
/-- C4 (amended): after any accepted submission, resubmitting the
byte-identical `ProofSubmission` is rejected, but with
`BatchAlreadyVerified` - the batch-freshness check runs before the
commitment replay check - while the stored commitment would also block it
independently. -/
theorem claim_c4_amended (evk : List Nat) (σ : Pallet.PalletState) (a : Nat)
    (s : Pallet.ProofSubmission) (σ2 : Pallet.PalletState)
    (h : Pallet.submitProof evk σ a s = (none, σ2)) :
    Pallet.submitProof evk σ2 a s = (some Pallet.PalletError.BatchAlreadyVerified, σ2) ∧
    (σ2.proofCommitments (Pallet.computeProofCommitment s)).isSome = true := by
  obtain ⟨info, hag, hact, hbatch, rfl⟩ := submitProof_success_inv evk σ a s σ2 h
  constructor
  · have hag2 : (Pallet.applySuccess σ a info s (Pallet.computeProofCommitment s)).aggregators a
        = some { info with proofs_submitted := (info.proofs_submitted + 1) % 2 ^ 64 } := by
      simp [Pallet.applySuccess, Pallet.mupdate]
    have hvb2 : ((Pallet.applySuccess σ a info s
        (Pallet.computeProofCommitment s)).verifiedBatches s.batch_id).isSome = true := by
      simp [Pallet.applySuccess, Pallet.mupdate]
    unfold Pallet.submitProof
    rw [hag2]
    simp only
    rw [if_neg (by simp [hact]), if_pos hvb2]
  · simp [Pallet.applySuccess, Pallet.mupdate]

/-- C6 (amended): an accepted batch writes `(batch_id, current_block)`
into `VerifiedRequests` for every id it lists, overwriting any earlier
entry for an already-mapped id rather than leaving it unchanged. -/
theorem claim_c6_amended (evk : List Nat) (σ : Pallet.PalletState) (a : Nat)
    (s : Pallet.ProofSubmission) (σ2 : Pallet.PalletState)
    (h : Pallet.submitProof evk σ a s = (none, σ2)) :
    ∀ id ∈ s.public_values.verified_request_ids,
      σ2.verifiedRequests id = some (s.batch_id, σ.currentBlock) := by
  obtain ⟨info, hag, hact, hbatch, rfl⟩ := submitProof_success_inv evk σ a s σ2 h
  intro id hid
  simp [Pallet.applySuccess, foldl_mupdate_lookup, hid]

/-! Concrete scenario: an active aggregator (account 7) submits a batch
with one verified request id, then replays the identical vkey, root and
proof bytes under a fresh batch id.  The proof bytes embed the two
public-value hashes so the structural binding scan succeeds, and they
meet the 1024-byte size floor. -/

def evk0 : List Nat := List.replicate 32 0

def vkeyA : List Nat := List.replicate 32 0xAB

def pvS1 : Pallet.PublicValues :=
  { version := 1, chain_id := 13817, batch_id := 1, verified_count := 1,
    requests_root := Pallet.computeMerkleRoot [1], verified_request_ids := [1] }

def pvS2 : Pallet.PublicValues := { pvS1 with batch_id := 2 }

def proofS : List Nat :=
  Pallet.publicValuesHash pvS1 ++ Pallet.publicValuesHash pvS2 ++ List.replicate 960 0

def subS1 : Pallet.ProofSubmission :=
  { batch_id := 1, proof := proofS, public_values := pvS1, vkey_hash := vkeyA }

def subS2 : Pallet.ProofSubmission :=
  { batch_id := 2, proof := proofS, public_values := pvS2, vkey_hash := vkeyA }

def stateS0 : Pallet.PalletState :=
  { aggregators := fun a =>
      if a = 7 then some { registered_at := 0, proofs_submitted := 0, active := true }
      else none
    verifiedBatches := fun _ => none
    verifiedRequests := fun _ => none
    totalProofsVerified := 0
    totalSignaturesVerified := 0
    proofCommitments := fun _ => none
    currentBlock := 5 }

def stateS1 : Pallet.PalletState := (Pallet.submitProof evk0 stateS0 7 subS1).2

def stateS2 : Pallet.PalletState := (Pallet.submitProof evk0 stateS1 7 subS2).2

set_option maxHeartbeats 4000000 in
/-- C3 (counterexample): a second submission under a fresh batch id with
identical vkey hash, requests root, verified ids and byte-identical proof
is ACCEPTED, not rejected - the commitment includes the batch id, so the
replay guard does not fire. -/
theorem claim_c3_counterexample :
    (Pallet.submitProof evk0 stateS0 7 subS1).1 = none ∧
    subS2.batch_id ≠ subS1.batch_id ∧
    stateS1.verifiedBatches subS2.batch_id = none ∧
    subS2.vkey_hash = subS1.vkey_hash ∧
    subS2.public_values.requests_root = subS1.public_values.requests_root ∧
    subS2.public_values.verified_request_ids = subS1.public_values.verified_request_ids ∧
    subS2.proof = subS1.proof ∧
    (Pallet.submitProof evk0 stateS1 7 subS2).1 = none := by
  exact ⟨rfl, by decide, rfl, rfl, rfl, rfl, rfl, rfl⟩

set_option maxHeartbeats 4000000 in
/-- C3 (amended): because `compute_proof_commitment` hashes the batch id
together with vkey, root and proof hash, the fresh-batch replay has a
different commitment, is absent from the commitment store, and passes the
replay guard (and is accepted). -/
theorem claim_c3_amended :
    Pallet.computeProofCommitment subS2 ≠ Pallet.computeProofCommitment subS1 ∧
    stateS1.proofCommitments (Pallet.computeProofCommitment subS1) = some 5 ∧
    stateS1.proofCommitments (Pallet.computeProofCommitment subS2) = none ∧
    (Pallet.submitProof evk0 stateS1 7 subS2).1 = none := by
  exact ⟨by decide, rfl, rfl, rfl⟩

set_option maxHeartbeats 4000000 in
/-- C4 (counterexample): replaying the byte-identical submission is
rejected, but with `BatchAlreadyVerified`, not with the claimed
`ProofAlreadyUsed` - the batch-freshness check runs first. -/
theorem claim_c4_counterexample :
    (Pallet.submitProof evk0 stateS0 7 subS1).1 = none ∧
    (Pallet.submitProof evk0 stateS1 7 subS1).1 =
      some Pallet.PalletError.BatchAlreadyVerified ∧
    (Pallet.submitProof evk0 stateS1 7 subS1).1 ≠
      some Pallet.PalletError.ProofAlreadyUsed := by
  refine ⟨rfl, rfl, ?_⟩
  intro hcontra
  have hb : (Pallet.submitProof evk0 stateS1 7 subS1).1 =
      some Pallet.PalletError.BatchAlreadyVerified := rfl
  rw [hb] at hcontra
  exact Option.noConfusion hcontra (fun hce => Pallet.PalletError.noConfusion hce)

set_option maxHeartbeats 4000000 in
/-- Witness for the amended C4 at the concrete scenario. -/
theorem claim_c4_witness :
    Pallet.submitProof evk0 stateS1 7 subS1
      = (some Pallet.PalletError.BatchAlreadyVerified, stateS1) ∧
    (stateS1.proofCommitments (Pallet.computeProofCommitment subS1)).isSome = true :=
  claim_c4_amended evk0 stateS0 7 subS1 stateS1 rfl

set_option maxHeartbeats 4000000 in
/-- C6 (counterexample): request id 1 is first recorded for batch 1; the
accepted second batch rewrites it to batch 2 - the stored pair is not
left unchanged. -/
theorem claim_c6_counterexample :
    (Pallet.submitProof evk0 stateS0 7 subS1).1 = none ∧
    stateS1.verifiedRequests 1 = some (1, 5) ∧
    (Pallet.submitProof evk0 stateS1 7 subS2).1 = none ∧
    stateS2.verifiedRequests 1 = some (2, 5) ∧
    ((2 : Nat), (5 : Nat)) ≠ ((1 : Nat), (5 : Nat)) := by
  exact ⟨rfl, rfl, rfl, rfl, by decide⟩

set_option maxHeartbeats 4000000 in
/-- Witness for the amended C6 at the concrete scenario. -/
theorem claim_c6_witness : stateS2.verifiedRequests 1 = some (2, 5) :=
  claim_c6_amended evk0 stateS1 7 subS2 stateS2 rfl 1 (by decide)

/-- Witness for C7: a non-registered account is turned away with
`NotAuthorized` and the state is untouched. -/
theorem claim_c7_witness :
    Pallet.submitProof evk0 stateS0 99 subS1
      = (some Pallet.PalletError.NotAuthorized, stateS0) ∧
    (Pallet.submitProof evk0 stateS0 99 subS1).2 = stateS0 := by
  have h := claim_c7_atomicity evk0 stateS0 99 subS1
  have h2 := h.2 (by decide)
  exact ⟨h2, h.1 Pallet.PalletError.NotAuthorized (by rw [h2])⟩

def pvZ : Pallet.PublicValues :=
  { version := 1, chain_id := 13817, batch_id := 9, verified_count := 0,
    requests_root := List.replicate 32 0, verified_request_ids := [] }

def subZ : Pallet.ProofSubmission :=
  { batch_id := 9, proof := [], public_values := pvZ, vkey_hash := vkeyA }

set_option maxHeartbeats 4000000 in
/-- Witness for C10: a zero-count submission that passes every earlier
check is rejected with `ProofVerificationFailed` and changes nothing. -/
theorem claim_c10_witness :
    Pallet.verifySp1Proof subZ.proof subZ.public_values subZ.vkey_hash = false ∧
    (Pallet.submitProof evk0 stateS0 7 subZ).1 =
      some Pallet.PalletError.ProofVerificationFailed ∧
    (Pallet.submitProof evk0 stateS0 7 subZ).2 = stateS0 := by
  have h := claim_c10_zero_count evk0 stateS0 7 subZ rfl
  exact ⟨h.1, h.2.2.2 (by decide), h.2.2.1⟩

set_option maxHeartbeats 4000000 in
/-- C1 (counterexample): the three Merkle roots differ already on the
singleton list [1] - the guest hashes the padded id with its in-house
keccak, the library hashes the raw 8-byte id with standard Keccak-256,
and the pallet hashes the padded id with BLAKE2b-256. -/
theorem claim_c1_counterexample :
    ¬ (Guest.computeMerkleRoot [1] = RemlLib.computeRequestsRoot [1] ∧
       RemlLib.computeRequestsRoot [1] = Pallet.computeMerkleRoot [1]) := by
  decide

set_option maxHeartbeats 4000000 in
/-- C1 (amended): all three implementations share the identical
ordering-sensitive, odd-promoting tree rule (they are the same
`merkleRootWith` loop instantiated with their leaf and node hashes) and
agree on the empty list, where each returns the all-zero sentinel; but
their hash primitives differ, so the roots disagree in general, already
at the singleton list [1], pairwise. -/
theorem claim_c1_amended :
    Guest.computeMerkleRoot [] = List.replicate 32 0 ∧
    RemlLib.computeRequestsRoot [] = List.replicate 32 0 ∧
    Pallet.computeMerkleRoot [] = List.replicate 32 0 ∧
    Guest.computeMerkleRoot [1] ≠ RemlLib.computeRequestsRoot [1] ∧
    RemlLib.computeRequestsRoot [1] ≠ Pallet.computeMerkleRoot [1] ∧
    Guest.computeMerkleRoot [1] ≠ Pallet.computeMerkleRoot [1] := by
  refine ⟨rfl, rfl, rfl, by decide, by decide, by decide⟩
